import Mathlib

/-!
Verification development for the dropbox-s3-sync repository (`dsync`).

Shallow embedding of the parts of the code the claims are about:

* `src/dsync/config.py` — OAuth token store (`DropboxConfig._get_oauth_token`,
  `_token_needs_refresh`, `_refresh_token`);
* `src/dsync/path_mapper.py` — `PathMapper.transform_path` and the concrete
  rule produced by `create_uuid_mapping`;
* `src/dsync/file_matcher.py` — `FileMatcher.find_matches_by_content`,
  `find_matches_by_metadata`, `find_matches_by_filename_pattern`,
  `find_best_match`, `_calculate_metadata_similarity`,
  `_calculate_string_similarity`;
* `src/dsync/rclone_client.py` — `RcloneClient.sync` (with its tenacity
  retry decorator) and `RcloneClient.bidirectional_sync`;
* `src/dsync/sync_engine.py` — `SyncEngine.run_sync` and its cleanup path.

Modelling conventions: Python floats (timestamps, confidences) are modelled
as rationals `ℚ`; Python exceptions as an explicit `PyOutcome` sum; the
persisted token file as an `Option TokenData` threaded through the
functions that read or write it; `re.compile` results as opaque records of
their `search`/`sub` behaviour, instantiated concretely for the one pattern
a claim fixes.
-/

namespace Dsync

/-! ## Token store (`src/dsync/config.py`) -/

/-- The persisted token file contents as read by `_get_oauth_token`
(`json.load`).  Python dict fields may be absent, hence the `Option`s;
`access_token` is read with `token_data["access_token"]` and is present in
every state the program writes. -/
structure TokenData where
  access_token : String
  refresh_token : Option String
  issued_at : Option ℚ
  expires_in : Option ℚ
  deriving Repr, DecidableEq

/-- Response body of the token-endpoint call `requests.post(...).json()`:
`new_data["access_token"]` is accessed directly,
`new_data.get("expires_in", 14400)` may be absent. -/
structure RefreshResponse where
  access_token : String
  expires_in : Option ℚ
  deriving Repr, DecidableEq

/-- Model of `DropboxConfig._token_needs_refresh` (config.py lines 70–80):
`True` when `issued_at` or `expires_in` is missing, else
`(current_time - issued_at) >= (expires_in - 300)`. -/
def tokenNeedsRefresh (td : TokenData) (now : ℚ) : Bool :=
  match td.issued_at, td.expires_in with
  | some issued, some expires => decide ((now - issued) ≥ (expires - 300))
  | _, _ => true

/-- Outcome of a token-store operation together with the token file after
the call and whether the HTTP refresh POST was issued:
`(result, file contents after, posted)`. -/
abbrev TokenStep (α : Type) := Except String α × Option TokenData × Bool

/-- Model of `DropboxConfig._refresh_token` (config.py lines 82–110), state-passing
over the token file.  `resp` is the outcome of the
`requests.post`/`raise_for_status`/`json()` sequence: `.error` when the
call raises (network error, HTTP error status), `.ok` with the parsed body
otherwise.  With no `refresh_token` in the loaded data it raises
`ValueError` before any POST; on a failed POST the error propagates and the
file is untouched; on success it updates `access_token`,
`expires_in := resp.expires_in` (default `14400`), `issued_at := now` and
writes the file. -/
def refreshToken (file : Option TokenData) (td : TokenData)
    (resp : Except String RefreshResponse) (now : ℚ) : TokenStep TokenData :=
  match td.refresh_token with
  | none => (.error "No refresh token available", file, false)
  | some _ =>
    match resp with
    | .error e => (.error e, file, true)
    | .ok r =>
      let td' : TokenData :=
        { td with
          access_token := r.access_token
          expires_in := some (r.expires_in.getD 14400)
          issued_at := some now }
      (.ok td', some td', true)

/-- Model of `DropboxConfig._get_oauth_token` (config.py lines 48–68), state-passing
over the token file.  A missing file (`FileNotFoundError`) becomes the
"Run OAuth flow first" `ValueError`; otherwise the loaded data is refreshed
when `_token_needs_refresh` says so (any exception from the refresh is
re-raised by the `except Exception: raise` handler), and
`token_data["access_token"]` of the (possibly refreshed) data is
returned. -/
def getOauthToken (file : Option TokenData)
    (resp : Except String RefreshResponse) (now : ℚ) : TokenStep String :=
  match file with
  | none => (.error "Token file not found. Run OAuth flow first.", none, false)
  | some td =>
    if tokenNeedsRefresh td now then
      match refreshToken (some td) td resp now with
      | (.ok td', file', posted) => (.ok td'.access_token, file', posted)
      | (.error e, file', posted) => (.error e, file', posted)
    else
      (.ok td.access_token, some td, false)

/-! ## Path mapper (`src/dsync/path_mapper.py`) -/

/-- Result of a successful `regex.search`, keeping what `transform_path`
consumes: `match.groupdict()`, the named capture groups (a group that
participated in no alternative maps to Python `None`, hence the inner
`Option`).  Patterns without `(?P<name>...)` syntax have an empty
groupdict. -/
structure MatchData where
  groupdict : List (String × Option String)
  deriving Repr, DecidableEq

/-- Value rendering used by `str.format`: a captured group that is Python
`None` formats as the string `"None"`. -/
def renderGroup : Option String → String
  | some s => s
  | none => "None"

/-- Core loop of Python `dest_pattern.format(**groupdict)` over the
template's characters, restricted to the placeholder forms the repository's
templates use (plain `{name}` fields and `\x7b\x7b`/`\x7d\x7d` escapes): a
lone closing brace or an unterminated field raises `ValueError`, a field
name absent from the groupdict raises `KeyError`.  The first argument is
`none` outside a placeholder and `some acc` while scanning a field name
(accumulated in reverse). -/
def pyFormatAux (vals : List (String × Option String)) :
    Option (List Char) → List Char → Except String (List Char)
  | none, [] => .ok []
  | none, '{' :: '{' :: rest => (fun t => '{' :: t) <$> pyFormatAux vals none rest
  | none, '}' :: '}' :: rest => (fun t => '}' :: t) <$> pyFormatAux vals none rest
  | none, '{' :: rest => pyFormatAux vals (some []) rest
  | none, '}' :: _ => .error "ValueError: single closing brace"
  | none, c :: rest => (fun t => c :: t) <$> pyFormatAux vals none rest
  | some _, [] => .error "ValueError: unterminated field"
  | some acc, '}' :: rest =>
    match vals.find? (fun p => p.1 = String.mk acc.reverse) with
    | some p => (fun t => (renderGroup p.2).data ++ t) <$> pyFormatAux vals none rest
    | none => .error "KeyError"
  | some acc, c :: rest => pyFormatAux vals (some (c :: acc)) rest

/-- Python `template.format(**groupdict)` as used in
`PathMapper.transform_path` line 53. -/
def pyFormat (template : String) (vals : List (String × Option String)) :
    Except String String :=
  String.mk <$> pyFormatAux vals none template.data

/-- A compiled mapping entry as built by `PathMapper.__init__` (lines
19–29) from an enabled rule: the compiled regex is kept opaque as the pair
of behaviours `transform_path` invokes on it — `search` (line 45) and
`sub` with this entry's destination template (line 49) — together with the
raw `dest_pattern` string. -/
structure CompiledMapping where
  search : String → Option MatchData
  sub : String → String
  dest_pattern : String

/-- Model of `PathMapper.transform_path` (path_mapper.py lines 31–63): scan
the compiled mappings in order; for the first whose regex matches, compute
the regex substitution, and when the destination template contains both an
opening and a closing brace replace that result by
`dest_pattern.format(**match.groupdict())`; a `KeyError` or `ValueError`
from the format call is caught and the scan continues with the next
mapping; with no applicable mapping the input is returned unchanged. -/
def transformPath (ms : List CompiledMapping) (p : String) : String :=
  match ms with
  | [] => p
  | m :: rest =>
    match m.search p with
    | none => transformPath rest p
    | some md =>
      let dest := m.sub p
      if m.dest_pattern.data.contains '{' && m.dest_pattern.data.contains '}' then
        match pyFormat m.dest_pattern md.groupdict with
        | .ok d => d
        | .error _ => transformPath rest p
      else dest

/-- Model of the first rule of `create_uuid_mapping` (path_mapper.py lines
149–153), pattern `^(.*/)?(.+)\.pdf$`: compiled, its `search` matches
exactly the strings that end in `.pdf` with at least one character before
the extension (the optional group 1 takes a directory prefix, group 2 is
nonempty); both capture groups are numbered, not named, so `groupdict()` is
empty on every match. -/
def pdfSearch (s : String) : Option MatchData :=
  if List.isSuffixOf ".pdf".data s.data && decide (4 < s.data.length) then
    some ⟨[]⟩
  else none

/-- Substitution behaviour of that compiled rule: the pattern is anchored
at both ends, so `sub` replaces the whole string by the destination
template (which contains no numeric backreferences, hence is literal) when
the pattern matches, and returns the input unchanged otherwise. -/
def pdfSub (s : String) : String :=
  if (pdfSearch s).isSome then "docs/user123/{filename}.pdf" else s

/-- The compiled form of the rule
`{source: ^(.*/)?(.+)\.pdf$, dest: docs/user123/{filename}.pdf}`. -/
def pdfRule : CompiledMapping :=
  { search := pdfSearch
    sub := pdfSub
    dest_pattern := "docs/user123/{filename}.pdf" }

/-! ## File matcher (`src/dsync/file_matcher.py`) -/

/-- Python `str.split()` with no argument over a character list: maximal
runs of non-whitespace characters, with empty pieces never produced.  The
first argument accumulates the current word in reverse. -/
def pySplitAux (acc : List Char) : List Char → List (List Char)
  | [] => if acc = [] then [] else [acc.reverse]
  | c :: rest =>
    if c.isWhitespace then
      if acc = [] then pySplitAux [] rest
      else acc.reverse :: pySplitAux [] rest
    else pySplitAux (c :: acc) rest

/-- The word set `set(s.lower().split())` built by
`_calculate_string_similarity` (file_matcher.py lines 220–221). -/
def pyWords (s : String) : Finset String :=
  ((pySplitAux [] (s.data.map Char.toLower)).map String.mk).toFinset

/-- Model of `FileMatcher._calculate_string_similarity` (file_matcher.py
lines 214–229): `0.0` when either string is falsy, else the Jaccard
similarity of the two word sets, with a `0.0` guard when the union is
empty.  The float quotient `len(intersection) / len(union)` is the exact
rational of the two cardinalities, built with `mkRat`. -/
def stringSimilarity (s1 s2 : String) : ℚ :=
  if s1 = "" ∨ s2 = "" then 0
  else if pyWords s1 ∪ pyWords s2 = ∅ then 0
  else mkRat ((pyWords s1 ∩ pyWords s2).card : ℤ) ((pyWords s1 ∪ pyWords s2).card)

/-- Python dict indexing over the association-list model of a metadata
dict (first binding wins, as dict keys are unique). -/
def pyDictLookup (m : List (String × String)) (k : String) : Option String :=
  (m.find? (fun p => p.1 = k)).map (fun p => p.2)

/-- Model of `FileMatcher._calculate_metadata_similarity` (file_matcher.py
lines 198–212): `0.0` when either dict is falsy (empty) or when
`set(keys1) & set(keys2)` is empty, else the fraction of common keys whose
values coincide. -/
def metadataSimilarity (m1 m2 : List (String × String)) : ℚ :=
  if m1 = [] ∨ m2 = [] then 0
  else if (m1.map Prod.fst).toFinset ∩ (m2.map Prod.fst).toFinset = ∅ then 0
  else
    mkRat
      (((((m1.map Prod.fst).toFinset ∩ (m2.map Prod.fst).toFinset)).filter
        (fun k => pyDictLookup m1 k = pyDictLookup m2 k)).card : ℤ)
      (((m1.map Prod.fst).toFinset ∩ (m2.map Prod.fst).toFinset).card)

/-- A candidate file descriptor from the destination listing: the dict
fields `find_best_match` and the three passes read (`path`, defaulted to
the empty string by `candidate.get('path','')`, and the optional
`local_path`). -/
structure Candidate where
  path : String
  local_path : Option String
  deriving Repr, DecidableEq

/-- Python `candidate.get('local_path') or candidate.get('path', '')`
(file_matcher.py line 82): `or` falls through to `path` when `local_path`
is `None` or empty. -/
def candidateLocalPath (c : Candidate) : String :=
  match c.local_path with
  | some lp => if lp = "" then c.path else lp
  | none => c.path

/-- The discriminator written into each match dict. -/
inductive MatchType
  | content_hash
  | metadata
  | filename_pattern
  deriving Repr, DecidableEq

/-- A match dict as produced by the three passes: the candidate's fields
spread with `match_type` and `match_confidence` (the pass-specific extra
keys carry no information the claims mention). -/
structure MatchEntry where
  candidate : Candidate
  match_type : MatchType
  match_confidence : ℚ
  deriving Repr, DecidableEq

/-- Environment a `FileMatcher` call runs against.  `pathExists` models
`Path(p).exists()` and `fileHash` models `calculate_file_hash`
(file_matcher.py lines 18–28, md5 hex digest of the file's bytes, `None`
on any I/O error).  `extractMetadata` models `extract_metadata_from_path`
(lines 30–72, the three regex layout patterns merged into one dict) and
`normalizeFilename` the stem-lowering-plus-noise-stripping pipeline of
`find_matches_by_filename_pattern` (lines 122 and 141–159, identical for
source and candidate); both are kept opaque since no claim depends on
their internals, only on how the passes consume their outputs. -/
structure MatcherEnv where
  pathExists : String → Bool
  fileHash : String → Option String
  extractMetadata : String → List (String × String)
  normalizeFilename : String → String

/-- Model of `FileMatcher.find_matches_by_content` (file_matcher.py lines
74–93): empty when the source file cannot be hashed; otherwise every
candidate whose effective local path is nonempty, exists on disk, and
hashes to the same digest becomes a match with `match_confidence` 1.0. -/
def findMatchesByContent (env : MatcherEnv) (file : String)
    (cands : List Candidate) : List MatchEntry :=
  match env.fileHash file with
  | none => []
  | some fh =>
    cands.filterMap (fun c =>
      let p := candidateLocalPath c
      if p ≠ "" && env.pathExists p then
        match env.fileHash p with
        | some ch => if ch = fh then some ⟨c, .content_hash, 1⟩ else none
        | none => none
      else none)

/-- Model of `FileMatcher.find_matches_by_metadata` (file_matcher.py lines
95–116): a candidate matches when the metadata similarity of the two
extracted dicts exceeds the `0.5` threshold. -/
def findMatchesByMetadata (env : MatcherEnv) (file : String)
    (cands : List Candidate) : List MatchEntry :=
  cands.filterMap (fun c =>
    let conf := metadataSimilarity (env.extractMetadata file) (env.extractMetadata c.path)
    if mkRat 1 2 < conf then some ⟨c, .metadata, conf⟩ else none)

/-- Model of `FileMatcher.find_matches_by_filename_pattern` (file_matcher.py
lines 118–173): a candidate matches when the string similarity of the two
normalized names exceeds the `0.7` threshold. -/
def findMatchesByFilename (env : MatcherEnv) (file : String)
    (cands : List Candidate) : List MatchEntry :=
  cands.filterMap (fun c =>
    let sim := stringSimilarity (env.normalizeFilename file) (env.normalizeFilename c.path)
    if mkRat 7 10 < sim then some ⟨c, .filename_pattern, sim⟩ else none)

/-- Python `max(xs, key=...)` folded over the tail: the running best is
replaced only when a later element is strictly greater, so the first
element of maximal key wins. -/
def pyMaxBy (m : MatchEntry) : List MatchEntry → MatchEntry
  | [] => m
  | x :: rest => pyMaxBy (if m.match_confidence < x.match_confidence then x else m) rest

/-- Model of `FileMatcher.find_best_match` (file_matcher.py lines
175–196): pool the content, metadata and filename matches in that order;
`None` when the pool is empty, otherwise the entry with the highest
`match_confidence` (first such entry on ties, per Python `max`). -/
def findBestMatch (env : MatcherEnv) (file : String)
    (cands : List Candidate) : Option MatchEntry :=
  match findMatchesByContent env file cands ++ findMatchesByMetadata env file cands
      ++ findMatchesByFilename env file cands with
  | [] => none
  | m :: rest => some (pyMaxBy m rest)

/-! ## Rclone client (`src/dsync/rclone_client.py`) -/

/-- The Python exceptions the modelled code raises or catches. -/
inductive PyExc
  | calledProcessError (returncode : Int) (stdout stderr : String)
  | valueError (msg : String)
  | other (msg : String)
  deriving Repr, DecidableEq

/-- Outcome of running a Python callable: a returned value or an escaped
exception. -/
inductive PyOutcome (α : Type) where
  | ret (a : α)
  | exc (e : PyExc)
  deriving Repr, DecidableEq

/-- Message rendering used where the code stringifies an exception
(`str(e)`); the exact text carries no weight in any claim. -/
def excMessage : PyExc → String
  | .calledProcessError c _ _ => "CalledProcessError: exit " ++ toString c
  | .valueError m => m
  | .other m => m

/-- A `subprocess.CompletedProcess` as returned by `_run_rclone`
(rclone_client.py lines 75–99): the external tool's exit code and captured
output for one invocation. -/
structure RunResult where
  returncode : Int
  stdout : String
  stderr : String
  deriving Repr, DecidableEq

/-- The result dict of `RcloneClient.sync`. -/
structure SyncResult where
  success : Bool
  return_code : Int
  stdout : String
  stderr : String
  error : Option String
  deriving Repr, DecidableEq

/-- Body of `RcloneClient.sync` (rclone_client.py lines 107–160), without
the decorator, applied to the completed process of this invocation: the
`try` block returns the success dict on exit code 0 and raises
`CalledProcessError` otherwise; the function's own
`except subprocess.CalledProcessError` handler turns that exception into
the failure dict.  The same shape is shared by `sync_s3_to_dropbox`
(lines 206–255). -/
def syncBody (r : RunResult) : PyOutcome SyncResult :=
  let tryBlock : PyOutcome SyncResult :=
    if r.returncode = 0 then
      .ret ⟨true, r.returncode, r.stdout, r.stderr, none⟩
    else
      .exc (.calledProcessError r.returncode r.stdout r.stderr)
  match tryBlock with
  | .exc (.calledProcessError code out err) =>
    .ret ⟨false, code, out, err, some (excMessage (.calledProcessError code out err))⟩
  | o => o

/-- The tenacity policy on `RcloneClient.sync` (rclone_client.py lines
101–106): `stop_after_attempt(3)`, retry only when the wrapped callable
raises `subprocess.CalledProcessError`, `reraise=True` after the attempt
budget.  `runs` is the stream of completed processes the external tool
would produce on successive attempts, `idx` the index of the current
attempt and `remaining` the attempts still allowed including the current
one.  Returns the final outcome and the number of invocations made.  The
exponential backoff (`wait_exponential(multiplier=1, min=1, max=10)`)
only spaces attempts in time and is not part of the state modelled. -/
def retryLoop (body : RunResult → PyOutcome SyncResult) (runs : Nat → RunResult) :
    Nat → Nat → PyOutcome SyncResult × Nat
  | idx, 0 => (body (runs idx), idx + 1)
  | idx, 1 => (body (runs idx), idx + 1)
  | idx, Nat.succ (Nat.succ r) =>
    match body (runs idx) with
    | .exc (.calledProcessError _ _ _) => retryLoop body runs (idx + 1) (Nat.succ r)
    | o => (o, idx + 1)

/-- `RcloneClient.sync` as invoked: the decorated body with the configured
attempt budget of 3. -/
def rcloneSync (runs : Nat → RunResult) : PyOutcome SyncResult × Nat :=
  retryLoop syncBody runs 0 3

/-- The result dict of `RcloneClient.bidirectional_sync`: the dry-run
preview shape, the completed shape with per-leg results, or the
exception-handler shape with the error string and the partial results
accumulated before the exception. -/
inductive BidirResult
  | dryRunPreview (dropbox_to_s3 s3_to_dropbox : RunResult)
  | completed (success : Bool) (results : List (String × SyncResult)) (strategy : String)
  | failed (error : String) (partial_results : List (String × SyncResult))
  deriving Repr, DecidableEq

/-- Model of `RcloneClient.bidirectional_sync` (rclone_client.py lines
273–320).  A dry run returns the preview of both `check` calls.
Otherwise leg 1 (`self.sync`, dropbox→s3) runs first and its outcome is
appended to `results`; only then leg 2 (`sync_s3_to_dropbox`) runs and is
appended; overall `success` is the conjunction of both legs' `success`
flags.  An exception escaping either leg is caught and reported with
the results accumulated so far.  `leg1`/`leg2` are the outcomes the two
sequential sync calls produce. -/
def bidirectionalSync (dryRun : Bool) (strategy : String)
    (preview : RunResult × RunResult)
    (leg1 leg2 : PyOutcome SyncResult) : BidirResult :=
  if dryRun then .dryRunPreview preview.1 preview.2
  else
    match leg1 with
    | .exc e => .failed (excMessage e) []
    | .ret r1 =>
      match leg2 with
      | .exc e => .failed (excMessage e) [("dropbox_to_s3", r1)]
      | .ret r2 =>
        .completed (r1.success && r2.success)
          [("dropbox_to_s3", r1), ("s3_to_dropbox", r2)] strategy

/-! ## Sync engine (`src/dsync/sync_engine.py`) -/

/-- The result dict of `SyncEngine.run_sync` (fields the claims touch;
`duration` is wall-clock time and is not modelled).  The exception-handler
dict carries no `return_code`/`stdout`/`stderr` keys, hence the
`Option`s. -/
structure EngineResult where
  success : Bool
  direction : String
  return_code : Option Int
  stdout : Option String
  stderr : Option String
  error : Option String
  deriving Repr, DecidableEq

/-- Model of `SyncEngine.run_sync` (sync_engine.py lines 38–119), threading
the existence of the transient rclone config file written by
`RcloneClient._setup_rclone_config`.  An invalid `direction` raises
`ValueError` at line 53, before the `try`/`finally`, so the config file is
untouched on that path.  Otherwise `body` — the outcome of the guarded
block up to and including the `sync_method` call — is wrapped into the
result dict by the `try` branch, any exception is converted to the
error dict by the `except Exception` branch, and the `finally` branch runs
`RcloneClient.cleanup` (rclone_client.py lines 337–344), which unlinks the
config file (deletion itself succeeds in the modelled filesystem).
Returns the call's outcome and whether the config file exists
afterwards. -/
def runSync (direction : String) (body : PyOutcome SyncResult)
    (configExists : Bool) : PyOutcome EngineResult × Bool :=
  if direction ≠ "dropbox_to_s3" && direction ≠ "s3_to_dropbox" then
    (.exc (.valueError ("Invalid direction: " ++ direction)), configExists)
  else
    let res : EngineResult :=
      match body with
      | .ret sr =>
        { success := sr.success
          direction := direction
          return_code := some sr.return_code
          stdout := some sr.stdout
          stderr := some sr.stderr
          error := if sr.success then none else sr.error }
      | .exc e =>
        { success := false
          direction := direction
          return_code := none
          stdout := none
          stderr := none
          error := some (excMessage e) }
    (.ret res, false)

/-! ## Theorems about the token store -/

/-- C1: for an oauth credential whose persisted data has `issued_at` and
`expires_in` with `now - issued_at < expires_in - 300`, `get_access_token`
returns the persisted `access_token`, the token file is unchanged and no
refresh POST is issued; with `now - issued_at >= expires_in - 300` the
refresh call is performed before returning. -/
theorem claim_c1_refresh_margin (td : TokenData) (resp : Except String RefreshResponse)
    (now issued expires : ℚ) (rt : String)
    (hIssued : td.issued_at = some issued) (hExpires : td.expires_in = some expires)
    (hRt : td.refresh_token = some rt) :
    (now - issued < expires - 300 →
      getOauthToken (some td) resp now = (.ok td.access_token, some td, false))
    ∧ (expires - 300 ≤ now - issued →
      (getOauthToken (some td) resp now).2.2 = true) := by
  constructor
  · intro h
    have hb : tokenNeedsRefresh td now = false := by
      simp only [tokenNeedsRefresh, hIssued, hExpires, decide_eq_false_iff_not, not_le]
      linarith
    simp [getOauthToken, hb]
  · intro h
    have hb : tokenNeedsRefresh td now = true := by
      simp only [tokenNeedsRefresh, hIssued, hExpires, decide_eq_true_eq]
      linarith
    rcases resp with e | r <;> simp [getOauthToken, hb, refreshToken, hRt]

/-- Concrete token data for the C1 witness: issued at time 1000, valid for
4000 seconds. -/
def tdW : TokenData :=
  { access_token := "tokA", refresh_token := some "r", issued_at := some 1000,
    expires_in := some 4000 }

/-- Concrete refresh-endpoint response for the token-store witnesses. -/
def respW : RefreshResponse :=
  { access_token := "tokB", expires_in := some 14400 }

/-- Witness for C1 at `now = 2000` (fresh: 1000 < 3700) and `now = 5000`
(due: 3700 ≤ 4000). -/
theorem claim_c1_refresh_margin_witness :
    getOauthToken (some tdW) (.ok respW) 2000 = (.ok "tokA", some tdW, false)
    ∧ (getOauthToken (some tdW) (.ok respW) 5000).2.2 = true :=
  ⟨(claim_c1_refresh_margin tdW (.ok respW) 2000 1000 4000 "r" rfl rfl rfl).1 (by norm_num),
   (claim_c1_refresh_margin tdW (.ok respW) 5000 1000 4000 "r" rfl rfl rfl).2 (by norm_num)⟩

/-- C7: when the token-endpoint call fails, `_refresh_token` propagates the
error and leaves the token file unchanged (and `_get_oauth_token` passes
that error on); only on success is the persisted state overwritten with
the new `access_token`, the new `expires_in` and `issued_at = now`. -/
theorem claim_c7_refresh_failure_leaves_file (file : Option TokenData) (td : TokenData)
    (rt : String) (now : ℚ) (hRt : td.refresh_token = some rt) :
    (∀ err, refreshToken file td (.error err) now = (.error err, file, true))
    ∧ (∀ err, tokenNeedsRefresh td now = true →
        getOauthToken (some td) (.error err) now = (.error err, some td, true))
    ∧ (∀ r, refreshToken file td (.ok r) now =
        (.ok { td with access_token := r.access_token,
                       expires_in := some (r.expires_in.getD 14400),
                       issued_at := some now },
         some { td with access_token := r.access_token,
                        expires_in := some (r.expires_in.getD 14400),
                        issued_at := some now },
         true)) := by
  refine ⟨fun err => by simp [refreshToken, hRt], fun err hdue => ?_, fun r => by simp [refreshToken, hRt]⟩
  simp [getOauthToken, hdue, refreshToken, hRt]

/-- Witness for C7 at a concrete failing and a concrete succeeding
refresh. -/
theorem claim_c7_refresh_failure_leaves_file_witness :
    refreshToken (some tdW) tdW (.error "HTTPError: 401") 5000 =
      (.error "HTTPError: 401", some tdW, true)
    ∧ refreshToken (some tdW) tdW (.ok respW) 5000 =
      (.ok { tdW with access_token := "tokB", expires_in := some 14400,
                      issued_at := some 5000 },
       some { tdW with access_token := "tokB", expires_in := some 14400,
                       issued_at := some 5000 },
       true) :=
  ⟨(claim_c7_refresh_failure_leaves_file (some tdW) tdW "r" 5000 rfl).1 "HTTPError: 401",
   (claim_c7_refresh_failure_leaves_file (some tdW) tdW "r" 5000 rfl).2.2 respW⟩

/-! ## Theorems about the path mapper -/

/-- C8: when no compiled mapping's regex matches `p`, `transform_path`
returns `p` unchanged, and hence transforming twice equals transforming
once; a no-match input is never an error (the function is total and
defined on all inputs by construction). -/
theorem claim_c8_no_match_identity (ms : List CompiledMapping) (p : String)
    (h : ∀ m ∈ ms, m.search p = none) :
    transformPath ms p = p
    ∧ transformPath ms (transformPath ms p) = transformPath ms p := by
  have hid : transformPath ms p = p := by
    induction ms with
    | nil => rfl
    | cons m rest ih =>
      have hm : m.search p = none := h m (List.mem_cons_self m rest)
      have hr := ih (fun x hx => h x (List.mem_cons_of_mem m hx))
      simp [transformPath, hm, hr]
  exact ⟨hid, by rw [hid, hid]⟩

/-- Witness for C8: the compiled pdf rule does not match `notes.txt`. -/
theorem claim_c8_no_match_identity_witness :
    transformPath [pdfRule] "notes.txt" = "notes.txt"
    ∧ transformPath [pdfRule] (transformPath [pdfRule] "notes.txt") =
        transformPath [pdfRule] "notes.txt" :=
  claim_c8_no_match_identity [pdfRule] "notes.txt" (by
    intro m hm
    rw [List.mem_singleton] at hm
    subst hm
    rfl)

/-- C3 fails on the code: applying `transform_path` to `report.pdf` under
the rule `^(.*/)?(.+)\.pdf$ → docs/user123/{filename}.pdf` does not yield
a path under `docs/user123/` — the result is the unchanged input. -/
theorem claim_c3_counterexample :
    transformPath [pdfRule] "report.pdf" = "report.pdf"
    ∧ List.isPrefixOf "docs/user123/".data
        (transformPath [pdfRule] "report.pdf").data = false :=
  ⟨rfl, rfl⟩

/-- C3 amended: the rule's pattern matches `report.pdf` but captures only
numbered groups, so `groupdict()` is empty; the destination template
contains braces, so the named-group substitution
`dest_pattern.format(**groupdict)` is attempted, raises `KeyError` for the
placeholder `filename`, the rule is skipped by the handler, and the input
is returned unchanged. -/
theorem claim_c3_keyerror_returns_input :
    pdfSearch "report.pdf" = some ⟨[]⟩
    ∧ pyFormat pdfRule.dest_pattern [] = .error "KeyError"
    ∧ transformPath [pdfRule] "report.pdf" = "report.pdf" :=
  ⟨rfl, rfl, rfl⟩

/-! ## Theorems about the rclone client and sync engine -/

/-- C2 is broken in the code: `sync`'s own `except` handler catches the
`CalledProcessError` its `try` block raises, so the body never lets that
exception reach the tenacity decorator; on a non-zero exit the decorated
call makes exactly one invocation of the external tool and returns the
failure envelope without any retry. -/
theorem claim_c2_retry_never_fires :
    (∀ r : RunResult, ∃ res, syncBody r = .ret res)
    ∧ (∀ runs : Nat → RunResult, (runs 0).returncode ≠ 0 →
        rcloneSync runs =
          (.ret ⟨false, (runs 0).returncode, (runs 0).stdout, (runs 0).stderr,
            some (excMessage (.calledProcessError (runs 0).returncode
              (runs 0).stdout (runs 0).stderr))⟩, 1)) := by
  constructor
  · intro r
    by_cases h : r.returncode = 0 <;> simp [syncBody, h]
  · intro runs h
    simp [rcloneSync, retryLoop, syncBody, h]

/-- Witness for C2's failing input: the external tool exits with code 1 on
the first attempt; one invocation happens and the failure dict comes
back. -/
theorem claim_c2_retry_never_fires_witness :
    rcloneSync (fun _ => ⟨1, "out", "err"⟩) =
      (.ret ⟨false, 1, "out", "err",
        some (excMessage (.calledProcessError 1 "out" "err"))⟩, 1) :=
  claim_c2_retry_never_fires.2 (fun _ => ⟨1, "out", "err"⟩) (by decide)

/-- C4: in a non-dry-run bidirectional sync where the first leg returns a
failure envelope and the second a success envelope, the second leg is
still run, the overall result has `success = false`, and both legs'
individual results are present in the returned output. -/
theorem claim_c4_partial_failure_keeps_both_legs (strategy : String)
    (preview : RunResult × RunResult) (r1 r2 : SyncResult)
    (h1 : r1.success = false) (_h2 : r2.success = true) :
    bidirectionalSync false strategy preview (.ret r1) (.ret r2) =
      .completed false [("dropbox_to_s3", r1), ("s3_to_dropbox", r2)] strategy := by
  simp [bidirectionalSync, h1]

/-- Witness for C4 at concrete leg results. -/
theorem claim_c4_partial_failure_keeps_both_legs_witness :
    bidirectionalSync false "newer" (⟨0, "", ""⟩, ⟨0, "", ""⟩)
      (.ret ⟨false, 1, "", "boom", some "CalledProcessError: exit 1"⟩)
      (.ret ⟨true, 0, "done", "", none⟩) =
      .completed false
        [("dropbox_to_s3", ⟨false, 1, "", "boom", some "CalledProcessError: exit 1"⟩),
         ("s3_to_dropbox", ⟨true, 0, "done", "", none⟩)] "newer" :=
  claim_c4_partial_failure_keeps_both_legs "newer" (⟨0, "", ""⟩, ⟨0, "", ""⟩)
    ⟨false, 1, "", "boom", some "CalledProcessError: exit 1"⟩
    ⟨true, 0, "done", "", none⟩ rfl rfl

/-- C5 fails on the code as stated: `run_sync` raises its invalid-direction
`ValueError` before entering the `try`/`finally`, so on that exit path the
run ends by exception with the transient rclone config file still in
place. -/
theorem claim_c5_counterexample :
    (runSync "bidirectional" (.ret ⟨true, 0, "", "", none⟩) true).2 = true
    ∧ runSync "bidirectional" (.ret ⟨true, 0, "", "", none⟩) true =
        (.exc (.valueError ("Invalid direction: " ++ "bidirectional")), true) :=
  ⟨rfl, rfl⟩

/-- C5 amended: for a valid direction the cleanup in the `finally` block
deletes the transient config file on every exit path of the guarded block
— normal success return, failed-result envelope, or an exception raised
during the run; only the invalid-direction `ValueError`, raised before the
`try`, escapes without cleanup. -/
theorem claim_c5_cleanup_on_valid_direction (direction : String)
    (body : PyOutcome SyncResult) (configExists : Bool)
    (h : direction = "dropbox_to_s3" ∨ direction = "s3_to_dropbox") :
    (runSync direction body configExists).2 = false := by
  rcases h with h | h <;> subst h <;> rfl

/-- Witness for the amended C5: a run that ends in an exception from the
guarded block still deletes the config file. -/
theorem claim_c5_cleanup_on_valid_direction_witness :
    (runSync "dropbox_to_s3" (.exc (.other "OSError: rclone not found")) true).2 = false :=
  claim_c5_cleanup_on_valid_direction "dropbox_to_s3"
    (.exc (.other "OSError: rclone not found")) true (Or.inl rfl)

/-! ## Theorems about the file matcher -/

/-- The threshold literal `0.5` of the metadata pass as a division. -/
theorem mkRat_half_eq : mkRat 1 2 = (1 : ℚ)/2 := by
  rw [Rat.mkRat_eq_div]
  norm_num

/-- The threshold literal `0.7` of the filename pass as a division. -/
theorem mkRat_sevenTenths_eq : mkRat 7 10 = (7 : ℚ)/10 := by
  rw [Rat.mkRat_eq_div]
  norm_num

/-- Metadata similarity never exceeds 1: the matching keys are a subset of
the common keys. -/
theorem metadataSimilarity_le_one (a b : List (String × String)) :
    metadataSimilarity a b ≤ 1 := by
  unfold metadataSimilarity
  split
  · norm_num
  · split
    · norm_num
    · rename_i h1 h2
      rw [Rat.mkRat_eq_div]
      have hpos : (0 : ℚ) <
          ((((a.map Prod.fst).toFinset ∩ (b.map Prod.fst).toFinset).card : ℕ) : ℚ) := by
        exact_mod_cast Finset.card_pos.mpr (Finset.nonempty_iff_ne_empty.mpr h2)
      rw [div_le_one hpos]
      exact_mod_cast Finset.card_le_card (Finset.filter_subset _ _)

/-- String similarity never exceeds 1: the intersection of the word sets
is a subset of their union. -/
theorem stringSimilarity_le_one (s t : String) : stringSimilarity s t ≤ 1 := by
  unfold stringSimilarity
  split
  · norm_num
  · split
    · norm_num
    · rename_i h1 h2
      rw [Rat.mkRat_eq_div]
      have hpos : (0 : ℚ) < (((pyWords s ∪ pyWords t).card : ℕ) : ℚ) := by
        exact_mod_cast Finset.card_pos.mpr (Finset.nonempty_iff_ne_empty.mpr h2)
      rw [div_le_one hpos]
      exact_mod_cast Finset.card_le_card Finset.inter_subset_union

/-- Symmetry of the metadata scorer: common keys and value equality are
both symmetric. -/
theorem metadataSimilarity_comm (a b : List (String × String)) :
    metadataSimilarity a b = metadataSimilarity b a := by
  unfold metadataSimilarity
  by_cases h1 : a = [] <;> by_cases h2 : b = [] <;> simp [h1, h2]
  rw [Finset.inter_comm ((List.map Prod.fst b).toFinset)]
  by_cases hc : (List.map Prod.fst a).toFinset ∩ (List.map Prod.fst b).toFinset = ∅
  · simp [hc]
  · simp only [if_neg hc]
    have hfc : Finset.filter (fun k => pyDictLookup a k = pyDictLookup b k)
        ((List.map Prod.fst a).toFinset ∩ (List.map Prod.fst b).toFinset) =
        Finset.filter (fun k => pyDictLookup b k = pyDictLookup a k)
        ((List.map Prod.fst a).toFinset ∩ (List.map Prod.fst b).toFinset) :=
      Finset.filter_congr (fun k _ => eq_comm)
    rw [hfc]

/-- Symmetry of the filename scorer: intersection and union of the word
sets are both symmetric. -/
theorem stringSimilarity_comm (s t : String) :
    stringSimilarity s t = stringSimilarity t s := by
  unfold stringSimilarity
  by_cases h1 : s = "" <;> by_cases h2 : t = "" <;> simp [h1, h2]
  rw [Finset.union_comm (pyWords t), Finset.inter_comm (pyWords t)]

/-- Every match the content pass emits carries `match_type` `content_hash`
and `match_confidence` exactly 1. -/
theorem mem_content_pass {env : MatcherEnv} {file : String} {cands : List Candidate}
    {m : MatchEntry} (h : m ∈ findMatchesByContent env file cands) :
    m.match_type = .content_hash ∧ m.match_confidence = 1 := by
  unfold findMatchesByContent at h
  cases hfh : env.fileHash file with
  | none => rw [hfh] at h; simp at h
  | some fh =>
    rw [hfh, List.mem_filterMap] at h
    obtain ⟨c, -, hc⟩ := h
    dsimp only at hc
    split at hc
    · split at hc
      · split at hc
        · injection hc with h'
          subst h'
          exact ⟨rfl, rfl⟩
        · exact absurd hc (by simp)
      · exact absurd hc (by simp)
    · exact absurd hc (by simp)

/-- Every match the metadata pass emits carries `match_type` `metadata` and
a confidence strictly above the 0.5 threshold, bounded by 1. -/
theorem mem_metadata_pass {env : MatcherEnv} {file : String} {cands : List Candidate}
    {m : MatchEntry} (h : m ∈ findMatchesByMetadata env file cands) :
    m.match_type = .metadata
    ∧ (1 : ℚ)/2 < m.match_confidence ∧ m.match_confidence ≤ 1 := by
  unfold findMatchesByMetadata at h
  rw [List.mem_filterMap] at h
  obtain ⟨c, -, hc⟩ := h
  dsimp only at hc
  split at hc
  · rename_i hlt
    injection hc with h'
    subst h'
    rw [← mkRat_half_eq]
    exact ⟨rfl, hlt, metadataSimilarity_le_one _ _⟩
  · exact absurd hc (by simp)

/-- Every match the filename pass emits carries `match_type`
`filename_pattern` and a confidence strictly above the 0.7 threshold,
bounded by 1. -/
theorem mem_filename_pass {env : MatcherEnv} {file : String} {cands : List Candidate}
    {m : MatchEntry} (h : m ∈ findMatchesByFilename env file cands) :
    m.match_type = .filename_pattern
    ∧ (7 : ℚ)/10 < m.match_confidence ∧ m.match_confidence ≤ 1 := by
  unfold findMatchesByFilename at h
  rw [List.mem_filterMap] at h
  obtain ⟨c, -, hc⟩ := h
  dsimp only at hc
  split at hc
  · rename_i hlt
    injection hc with h'
    subst h'
    rw [← mkRat_sevenTenths_eq]
    exact ⟨rfl, hlt, stringSimilarity_le_one _ _⟩
  · exact absurd hc (by simp)

/-- Python `max` selects an element of the nonempty pool it is given. -/
theorem pyMaxBy_mem : ∀ (ms : List MatchEntry) (m : MatchEntry), pyMaxBy m ms ∈ m :: ms := by
  intro ms
  induction ms with
  | nil => intro m; exact List.mem_singleton.mpr rfl
  | cons x rest ih =>
    intro m
    show pyMaxBy (if m.match_confidence < x.match_confidence then x else m) rest ∈ m :: x :: rest
    by_cases hcmp : m.match_confidence < x.match_confidence
    · rw [if_pos hcmp]
      exact List.mem_cons_of_mem m (ih x)
    · rw [if_neg hcmp]
      rcases List.mem_cons.mp (ih m) with h' | h'
      · rw [h']
        exact List.mem_cons_self m (x :: rest)
      · exact List.mem_cons_of_mem m (List.mem_cons_of_mem x h')

/-- Python `max` keeps its first argument when nothing later is strictly
greater — the first-encountered maximum wins ties. -/
theorem pyMaxBy_eq_self : ∀ (ms : List MatchEntry) (m : MatchEntry),
    (∀ x ∈ ms, x.match_confidence ≤ m.match_confidence) → pyMaxBy m ms = m := by
  intro ms
  induction ms with
  | nil => intro m _; rfl
  | cons x rest ih =>
    intro m h
    have hx : ¬ m.match_confidence < x.match_confidence :=
      not_lt.mpr (h x (List.mem_cons_self x rest))
    show pyMaxBy (if m.match_confidence < x.match_confidence then x else m) rest = m
    rw [if_neg hx]
    exact ih m (fun y hy => h y (List.mem_cons_of_mem x hy))

/-- C6: when the content pass finds exactly one byte-identical candidate
and the metadata pass finds nothing (the remaining candidates can match
only by filename similarity), `find_best_match` returns that content
match, with `match_type` `content_hash` and confidence exactly 1.0. -/
theorem claim_c6_content_hash_wins (env : MatcherEnv) (file : String)
    (cands : List Candidate) (m : MatchEntry)
    (hc : findMatchesByContent env file cands = [m])
    (hm : findMatchesByMetadata env file cands = []) :
    findBestMatch env file cands = some m
    ∧ m.match_type = .content_hash ∧ m.match_confidence = 1 := by
  obtain ⟨htype, hconf⟩ := mem_content_pass (hc.symm ▸ List.mem_singleton.mpr (rfl : m = m))
  refine ⟨?_, htype, hconf⟩
  unfold findBestMatch
  rw [hc, hm]
  simp only [List.append_nil, List.singleton_append]
  rw [pyMaxBy_eq_self _ m (fun x hx => by
    rw [hconf]
    exact (mem_filename_pass hx).2.2)]

/-- Concrete matcher environment for the C6 and C9 witnesses: the source
`qrf.pdf` hashes like the first candidate's on-disk copy, metadata
extraction finds no layout, and normalization maps the filenames to word
strings that make the second candidate similar but not identical. -/
def envW : MatcherEnv :=
  { pathExists := fun p => decide (p = "/tmp/cand.pdf")
    fileHash := fun p => if p = "qrf.pdf" ∨ p = "/tmp/cand.pdf" then some "h1" else none
    extractMetadata := fun _ => []
    normalizeFilename := fun s =>
      if s = "qrf.pdf" then "quarterly report final"
      else if s = "v2.pdf" then "quarterly report final v2" else s }

/-- The byte-identical candidate of the witness pool. -/
def candHashW : Candidate := ⟨"arch.pdf", some "/tmp/cand.pdf"⟩

/-- The filename-similar-only candidate of the witness pool (Jaccard
similarity 3/4 after normalization). -/
def candNameW : Candidate := ⟨"v2.pdf", none⟩

/-- Witness for C6: a pool with one byte-identical candidate and one
filename-similar candidate selects the content match at confidence 1. -/
theorem claim_c6_content_hash_wins_witness :
    findBestMatch envW "qrf.pdf" [candHashW, candNameW] =
      some ⟨candHashW, .content_hash, 1⟩
    ∧ (⟨candHashW, .content_hash, 1⟩ : MatchEntry).match_type = .content_hash
    ∧ (⟨candHashW, .content_hash, 1⟩ : MatchEntry).match_confidence = 1 :=
  claim_c6_content_hash_wins envW "qrf.pdf" [candHashW, candNameW]
    ⟨candHashW, .content_hash, 1⟩ rfl rfl

/-- C9: every non-`None` result of `find_best_match` has a confidence in
(0.5, 1]; content matches carry exactly 1.0, and both similarity scorers
are bounded by 1. -/
theorem claim_c9_confidence_bounds :
    (∀ (env : MatcherEnv) (file : String) (cands : List Candidate) (m : MatchEntry),
      findBestMatch env file cands = some m →
      (1 : ℚ)/2 < m.match_confidence ∧ m.match_confidence ≤ 1)
    ∧ (∀ (env : MatcherEnv) (file : String) (cands : List Candidate) (m : MatchEntry),
      m ∈ findMatchesByContent env file cands → m.match_confidence = 1)
    ∧ (∀ a b, metadataSimilarity a b ≤ 1)
    ∧ (∀ s t, stringSimilarity s t ≤ 1) := by
  refine ⟨?_, fun env file cands m h => (mem_content_pass h).2,
    metadataSimilarity_le_one, stringSimilarity_le_one⟩
  intro env file cands m h
  unfold findBestMatch at h
  cases hall : findMatchesByContent env file cands ++ findMatchesByMetadata env file cands
      ++ findMatchesByFilename env file cands with
  | nil => rw [hall] at h; exact absurd h (by simp)
  | cons x rest =>
    rw [hall] at h
    injection h with h'
    have hmem : m ∈ x :: rest := h' ▸ pyMaxBy_mem rest x
    rw [← hall] at hmem
    rcases List.mem_append.mp hmem with hmem' | hfl
    · rcases List.mem_append.mp hmem' with hct | hmd
      · have hp := mem_content_pass hct
        rw [hp.2]
        norm_num
      · exact (mem_metadata_pass hmd).2
    · have hp := mem_filename_pass hfl
      exact ⟨lt_trans (by norm_num) hp.2.1, hp.2.2⟩

/-- Witness for C9 at the concrete pool of the C6 witness. -/
theorem claim_c9_confidence_bounds_witness :
    (1 : ℚ)/2 < (⟨candHashW, .content_hash, 1⟩ : MatchEntry).match_confidence
    ∧ (⟨candHashW, .content_hash, 1⟩ : MatchEntry).match_confidence ≤ 1 :=
  claim_c9_confidence_bounds.1 envW "qrf.pdf" [candHashW, candNameW]
    ⟨candHashW, .content_hash, 1⟩ rfl

/-- C10: both similarity scorers are symmetric in their two arguments. -/
theorem claim_c10_similarity_symmetric :
    (∀ a b, metadataSimilarity a b = metadataSimilarity b a)
    ∧ (∀ s t, stringSimilarity s t = stringSimilarity t s) :=
  ⟨metadataSimilarity_comm, stringSimilarity_comm⟩

end Dsync
